import Mathlib

/-!
Verification of the ISY994 component classification engine
(homeassistant/components/isy994/__init__.py).

The development shallowly embeds the node / program / variable / weather
classifiers.  Python dynamic-attribute access (hasattr checks) becomes
Option fields, runtime exceptions become the error case of Except, and
the mutating bucket appends performed inside the matchers become the
explicit list of append targets returned by each matcher call.
-/

namespace ISY994

/-- The eight functional categories, in the fixed order of SUPPORTED_DOMAINS. -/
inductive Domain where
  | binary_sensor
  | sensor
  | lock
  | fan
  | cover
  | light
  | switch
  | climate
deriving DecidableEq

/-- One entry of the NODE_FILTERS table: the four optional match lists plus
the state-token list, for a single category. -/
structure DomainFilter where
  uom : List String
  states : List String
  node_def_id : List String
  insteon_type : List String
  zwave_cat : List String

/-- NODE_FILTERS from the source.  Ranges written in the source with
range() are expanded to their literal elements: the sensor uom list is
1, 3-10, 12-50, 52-65, 69-77, 79, 82-96; the binary_sensor zwave list is
104, 112, 138, 148-178; the sensor zwave list is 118, 180-183. -/
def NODE_FILTERS : Domain → DomainFilter
  | Domain.binary_sensor =>
    ⟨[], [], ["BinaryAlarm", "OnOffControl_ADV"], ["7.13.", "16."],
     ["104", "112", "138",
      "148", "149", "150", "151", "152", "153", "154", "155", "156", "157",
      "158", "159", "160", "161", "162", "163", "164", "165", "166", "167",
      "168", "169", "170", "171", "172", "173", "174", "175", "176", "177",
      "178"]⟩
  | Domain.sensor =>
    ⟨["1",
      "3", "4", "5", "6", "7", "8", "9", "10",
      "12", "13", "14", "15", "16", "17", "18", "19", "20", "21", "22",
      "23", "24", "25", "26", "27", "28", "29", "30", "31", "32", "33",
      "34", "35", "36", "37", "38", "39", "40", "41", "42", "43", "44",
      "45", "46", "47", "48", "49", "50",
      "52", "53", "54", "55", "56", "57", "58", "59", "60", "61", "62",
      "63", "64", "65",
      "69", "70", "71", "72", "73", "74", "75", "76", "77",
      "79",
      "82", "83", "84", "85", "86", "87", "88", "89", "90", "91", "92",
      "93", "94", "95", "96"],
     [], ["IMETER_SOLO"], ["9.0.", "9.7."],
     ["118", "180", "181", "182", "183"]⟩
  | Domain.lock =>
    ⟨["11"], ["locked", "unlocked"], ["DoorLock"], ["15."], ["111"]⟩
  | Domain.fan =>
    ⟨[], ["off", "low", "med", "high"], ["FanLincMotor"], ["1.46."], []⟩
  | Domain.cover =>
    ⟨["97"], ["open", "closed", "closing", "opening", "stopped"], [], [], []⟩
  | Domain.light =>
    ⟨["51"], ["on", "off", "%"],
     ["DimmerLampSwitch", "DimmerLampSwitch_ADV", "DimmerSwitchOnly",
      "DimmerSwitchOnly_ADV", "DimmerLampOnly", "BallastRelayLampSwitch",
      "BallastRelayLampSwitch_ADV", "RemoteLinc2", "RemoteLinc2_ADV"],
     ["1."], ["109", "119"]⟩
  | Domain.switch =>
    ⟨["2", "78"], ["on", "off"],
     ["OnOffControl", "RelayLampSwitch", "RelayLampSwitch_ADV",
      "RelaySwitchOnlyPlusQuery", "RelaySwitchOnlyPlusQuery_ADV",
      "RelayLampOnly", "RelayLampOnly_ADV", "KeypadButton",
      "KeypadButton_ADV", "EZRAIN_Input", "EZRAIN_Output", "EZIO2x4_Input",
      "EZIO2x4_Input_ADV", "BinaryControl", "BinaryControl_ADV",
      "AlertModuleSiren", "AlertModuleSiren_ADV", "AlertModuleArmed",
      "Siren", "Siren_ADV"],
     ["2.", "9.10.", "9.11."],
     ["121", "122", "123", "137", "141", "147"]⟩
  | Domain.climate =>
    ⟨["2"], ["heating", "cooling", "idle", "fan_only", "off"],
     ["TempLinc", "Thermostat"], ["5."], ["140"]⟩

def SUPPORTED_DOMAINS : List Domain :=
  [Domain.binary_sensor, Domain.sensor, Domain.lock, Domain.fan,
   Domain.cover, Domain.light, Domain.switch, Domain.climate]

def SUPPORTED_PROGRAM_DOMAINS : List Domain :=
  [Domain.binary_sensor, Domain.lock, Domain.fan, Domain.cover,
   Domain.switch]

/-- ISY Scenes are more like switches than Hass scenes (SCENE_DOMAIN). -/
def SCENE_DOMAIN : Domain := Domain.switch

/-- Python str.startswith as structural recursion over the characters of
the candidate leading segment. -/
def charsHavePre : List Char → List Char → Bool
  | [], _ => true
  | _ :: _, [] => false
  | p :: ps, c :: cs => p == c && charsHavePre ps cs

/-- device_type.startswith(t) from the source. -/
def pyStartswith (s pre : String) : Bool := charsHavePre pre.data s.data

/-- The Python substring containment test (needle in hay). -/
def occursChars : List Char → List Char → Bool
  | n, [] => n.isEmpty
  | n, c :: t => charsHavePre n (c :: t) || occursChars n t

/-- ignore_identifier in path, etc. -/
def occursWithin (needle hay : String) : Bool := occursChars needle.data hay.data

/-- int(node.nid[-1]) from the source: takes the last character of the
address and parses it as an integer.  none models the IndexError on an
empty address or the ValueError on a non-digit character. -/
def lastNumeral (s : String) : Option Nat :=
  match s.data.getLast? with
  | none => none
  | some c => if c.isDigit then some (c.toNat - 48) else none

/-- Python set equality between the two string collections. -/
def setEqStr (a b : List String) : Bool :=
  a.all (fun x => b.contains x) && b.all (fun x => a.contains x)

/-- str.lower over the characters of the string (the uom codes and state
tokens compared here are plain ASCII). -/
def strToLower (s : String) : String := String.mk (s.data.map Char.toLower)

/-- A device node.  Optional fields model the hasattr/None probing of the
source; uom is the raw iterable of unit-of-measure strings; nid is the
device address; isGroup models isinstance(node, Group). -/
structure Node where
  name : String
  node_def_id : Option String
  type : Option String
  devtype_cat : Option String
  uom : Option (List String)
  nid : String
  isGroup : Bool
deriving DecidableEq

/-- SUPPORTED_DOMAINS if not single_domain else single_domain from the
source. -/
def domainsFor : Option Domain → List Domain
  | none => SUPPORTED_DOMAINS
  | some d => [d]

/-- The domain loop of check_for_node_def: first domain whose
node_def_id list contains the id of the node wins; the returned list is
the sequence of bucket appends performed, the Bool the returned value. -/
def nodeDefLoop (ndi : String) : List Domain → List Domain × Bool
  | [] => ([], false)
  | d :: rest =>
    if ((NODE_FILTERS d).node_def_id).contains ndi then ([d], true)
    else nodeDefLoop ndi rest

/-- check_for_node_def from the source. -/
def check_for_node_def (node : Node) (single_domain : Option Domain) :
    List Domain × Bool :=
  match node.node_def_id with
  | none => ([], false)
  | some ndi => nodeDefLoop ndi (domainsFor single_domain)

/-- The domain loop of check_for_insteon_type, with the two hard-wired
special cases: a matching fan node whose address ends in numeral 1 is
appended to light, and a matching climate node whose address ends in
numeral 2 or 3 is appended to binary_sensor.  The error case models the
uncaught ValueError/IndexError of int(node.nid[-1]). -/
def insteonLoop (node : Node) (device_type : String) :
    List Domain → Except Unit (List Domain × Bool)
  | [] => Except.ok ([], false)
  | d :: rest =>
    if ((NODE_FILTERS d).insteon_type).any (fun t => pyStartswith device_type t) then
      if d = Domain.fan then
        match lastNumeral node.nid with
        | none => Except.error ()
        | some k =>
          if k = 1 then Except.ok ([Domain.light], true)
          else Except.ok ([d], true)
      else if d = Domain.climate then
        match lastNumeral node.nid with
        | none => Except.error ()
        | some k =>
          if k = 2 ∨ k = 3 then Except.ok ([Domain.binary_sensor], true)
          else Except.ok ([d], true)
      else Except.ok ([d], true)
    else insteonLoop node device_type rest

/-- check_for_insteon_type from the source. -/
def check_for_insteon_type (node : Node) (single_domain : Option Domain) :
    Except Unit (List Domain × Bool) :=
  match node.type with
  | none => Except.ok ([], false)
  | some device_type => insteonLoop node device_type (domainsFor single_domain)

/-- The domain loop of check_for_zwave_cat. -/
def zwaveLoop (device_type : String) : List Domain → List Domain × Bool
  | [] => ([], false)
  | d :: rest =>
    if ((NODE_FILTERS d).zwave_cat).any (fun t => pyStartswith device_type t) then
      ([d], true)
    else zwaveLoop device_type rest

/-- check_for_zwave_cat from the source. -/
def check_for_zwave_cat (node : Node) (single_domain : Option Domain) :
    List Domain × Bool :=
  match node.devtype_cat with
  | none => ([], false)
  | some device_type => zwaveLoop device_type (domainsFor single_domain)

/-- The domain loop of check_for_uom_id: nonempty intersection of the
lowered node uom set with the uom list of the domain. -/
def uomLoop (node_uom : List String) : List Domain → List Domain × Bool
  | [] => ([], false)
  | d :: rest =>
    if node_uom.any (fun x => ((NODE_FILTERS d).uom).contains x) then ([d], true)
    else uomLoop node_uom rest

/-- check_for_uom_id from the source.  A truthy (nonempty) uom_list
routes to the override branch appending to single_domain; the error case
models the KeyError of indexing the bucket table with None. -/
def check_for_uom_id (node : Node) (single_domain : Option Domain)
    (uom_list : Option (List String)) : Except Unit (List Domain × Bool) :=
  match node.uom with
  | none => Except.ok ([], false)
  | some u =>
    let node_uom := u.map strToLower
    match uom_list with
    | some ul =>
      if ul.isEmpty then Except.ok (uomLoop node_uom (domainsFor single_domain))
      else if node_uom.any (fun x => ul.contains x) then
        match single_domain with
        | some d => Except.ok ([d], true)
        | none => Except.error ()
      else Except.ok ([], false)
    | none => Except.ok (uomLoop node_uom (domainsFor single_domain))

/-- The domain loop of check_for_states_in_uom: set equality of the
lowered node uom set with the states list of the domain. -/
def statesLoop (node_uom : List String) : List Domain → List Domain × Bool
  | [] => ([], false)
  | d :: rest =>
    if setEqStr node_uom ((NODE_FILTERS d).states) then ([d], true)
    else statesLoop node_uom rest

/-- check_for_states_in_uom from the source. -/
def check_for_states_in_uom (node : Node) (single_domain : Option Domain)
    (states_list : Option (List String)) : Except Unit (List Domain × Bool) :=
  match node.uom with
  | none => Except.ok ([], false)
  | some u =>
    let node_uom := u.map strToLower
    match states_list with
    | some sl =>
      if sl.isEmpty then Except.ok (statesLoop node_uom (domainsFor single_domain))
      else if setEqStr node_uom sl then
        match single_domain with
        | some d => Except.ok ([d], true)
        | none => Except.error ()
      else Except.ok ([], false)
    | none => Except.ok (statesLoop node_uom (domainsFor single_domain))

/-- is_sensor_a_binary_sensor from the source: the four checks run in
order, each restricted to binary_sensor, the last two with the override
uom list 2/78 and the override state tokens on/off; append lists of the
successive calls are accumulated exactly as the Python side effects are. -/
def is_sensor_a_binary_sensor (node : Node) : Except Unit (List Domain × Bool) :=
  match check_for_node_def node (some Domain.binary_sensor) with
  | (a1, true) => Except.ok (a1, true)
  | (a1, false) =>
    match check_for_insteon_type node (some Domain.binary_sensor) with
    | Except.error e => Except.error e
    | Except.ok (a2, true) => Except.ok (a1 ++ a2, true)
    | Except.ok (a2, false) =>
      match check_for_uom_id node (some Domain.binary_sensor) (some ["2", "78"]) with
      | Except.error e => Except.error e
      | Except.ok (a3, true) => Except.ok (a1 ++ a2 ++ a3, true)
      | Except.ok (a3, false) =>
        match check_for_states_in_uom node (some Domain.binary_sensor)
            (some ["on", "off"]) with
        | Except.error e => Except.error e
        | Except.ok (a4, true) => Except.ok (a1 ++ a2 ++ a3 ++ a4, true)
        | Except.ok (a4, false) => Except.ok (a1 ++ a2 ++ a3 ++ a4, false)

/-- The per-node body of categorize_nodes.  The result is the list of
bucket appends performed while handling the (path, node) pair, in order;
the error case is an exception escaping the pass. -/
def classifyNode (ignore_identifier sensor_identifier : String)
    (path : String) (node : Node) : Except Unit (List Domain) :=
  if occursWithin ignore_identifier path || occursWithin ignore_identifier node.name then
    Except.ok []
  else if node.isGroup then
    Except.ok [SCENE_DOMAIN]
  else if occursWithin sensor_identifier path || occursWithin sensor_identifier node.name then
    match is_sensor_a_binary_sensor node with
    | Except.error e => Except.error e
    | Except.ok (a, true) => Except.ok a
    | Except.ok (a, false) => Except.ok (a ++ [Domain.sensor])
  else
    match check_for_node_def node none with
    | (a1, true) => Except.ok a1
    | (a1, false) =>
      match check_for_insteon_type node none with
      | Except.error e => Except.error e
      | Except.ok (a2, true) => Except.ok (a1 ++ a2)
      | Except.ok (a2, false) =>
        match check_for_zwave_cat node none with
        | (a3, true) => Except.ok (a1 ++ a2 ++ a3)
        | (a3, false) =>
          match check_for_uom_id node none none with
          | Except.error e => Except.error e
          | Except.ok (a4, true) => Except.ok (a1 ++ a2 ++ a3 ++ a4)
          | Except.ok (a4, false) =>
            match check_for_states_in_uom node none none with
            | Except.error e => Except.error e
            | Except.ok (a5, _) => Except.ok (a1 ++ a2 ++ a3 ++ a4 ++ a5)

/-- The category-indexed bucket collections for nodes. -/
def Buckets : Type := Domain → List Node

def emptyBuckets : Buckets := fun _ => []

def appendNode (b : Buckets) (d : Domain) (n : Node) : Buckets :=
  fun d2 => if d2 = d then b d2 ++ [n] else b d2

def applyAppends (b : Buckets) (n : Node) : List Domain → Buckets
  | [] => b
  | d :: rest => applyAppends (appendNode b d n) n rest

/-- categorize_nodes from the source: fold the per-node classification
over the (path, node) pairs, performing the bucket appends of each. -/
def categorize_nodes (ignore_identifier sensor_identifier : String) :
    List (String × Node) → Buckets → Except Unit Buckets
  | [], b => Except.ok b
  | (path, node) :: rest, b =>
    match classifyNode ignore_identifier sensor_identifier path node with
    | Except.error e => Except.error e
    | Except.ok ds =>
      categorize_nodes ignore_identifier sensor_identifier rest
        (applyAppends b node ds)

def KEY_ACTIONS : String := "actions"
def KEY_FOLDER : String := "folder"
def KEY_STATUS : String := "status"

/-- A leaf of the program tree: its dtype tag and an identity. -/
structure Leaf where
  dtype : String
  pid : Nat
deriving DecidableEq

/-- A per-entity program folder: its name and its keyed leaves, looked up
by the status/actions keys; a missing key models a KeyError. -/
structure EntityFolder where
  name : String
  leaves : List (String × Leaf)
deriving DecidableEq

/-- A per-category program folder: the (dtype, name, node_id) triples of
its children and the indexing of child folders by node_id. -/
structure DomainFolder where
  children : List (String × String × String)
  byId : List (String × EntityFolder)
deriving DecidableEq

def folderGet (f : DomainFolder) (nid : String) : Option EntityFolder :=
  (f.byId.find? (fun p => p.1 == nid)).map (fun p => p.2)

def leafGet (f : EntityFolder) (k : String) : Option Leaf :=
  (f.leaves.find? (fun p => p.1 == k)).map (fun p => p.2)

def domainName : Domain → String
  | Domain.binary_sensor => "binary_sensor"
  | Domain.sensor => "sensor"
  | Domain.lock => "lock"
  | Domain.fan => "fan"
  | Domain.cover => "cover"
  | Domain.light => "light"
  | Domain.switch => "switch"
  | Domain.climate => "climate"

/-- The child loop of categorize_programs for one category: non-folder
children are skipped; for a folder child the status leaf must exist with
dtype program, and for every category except binary_sensor the actions
leaf must too, else the folder is skipped with a warning; for
binary_sensor the action handle of the emitted entity is none.  The
error case models the uncaught KeyError of the folder[node_id] lookup,
which sits outside the try block in the source. -/
def programChildren (domain : Domain) (folder : DomainFolder) :
    List (String × String × String) → Except Unit (List (String × Leaf × Option Leaf))
  | [] => Except.ok []
  | (dtype, _, node_id) :: rest =>
    if dtype ≠ KEY_FOLDER then programChildren domain folder rest
    else
      match folderGet folder node_id with
      | none => Except.error ()
      | some ef =>
        let entry : Option (String × Leaf × Option Leaf) :=
          match leafGet ef KEY_STATUS with
          | none => none
          | some status =>
            if status.dtype ≠ "program" then none
            else if domain ≠ Domain.binary_sensor then
              match leafGet ef KEY_ACTIONS with
              | none => none
              | some actions =>
                if actions.dtype ≠ "program" then none
                else some (ef.name, status, some actions)
            else some (ef.name, status, none)
        match entry with
        | none => programChildren domain folder rest
        | some e =>
          match programChildren domain folder rest with
          | Except.error er => Except.error er
          | Except.ok l => Except.ok (e :: l)

/-- The domain loop of categorize_programs: the per-category folder is
looked up under the My Programs container by the key HA.domain; a
KeyError there is passed over. -/
def programsGo (myPrograms : String → Option DomainFolder) :
    List Domain → Except Unit (List (Domain × (String × Leaf × Option Leaf)))
  | [] => Except.ok []
  | d :: rest =>
    match myPrograms ("HA." ++ domainName d) with
    | none => programsGo myPrograms rest
    | some folder =>
      match programChildren d folder folder.children with
      | Except.error er => Except.error er
      | Except.ok es =>
        match programsGo myPrograms rest with
        | Except.error er => Except.error er
        | Except.ok l => Except.ok (es.map (fun e => (d, e)) ++ l)

/-- categorize_programs from the source. -/
def categorize_programs (myPrograms : String → Option DomainFolder) :
    Except Unit (List (Domain × (String × Leaf × Option Leaf))) :=
  programsGo myPrograms SUPPORTED_PROGRAM_DOMAINS

/-- A user-declared variable descriptor: the declared numeric id and
type from the validated configuration entry. -/
structure VarConf where
  vid : Nat
  vtype : Nat
deriving DecidableEq

/-- The descriptor loop of categorize_variables.  The live directory
children of a type are (kind, name, id) triples; the name is optional to
keep the vname-is-None test of the source representable.  The error case
models the uncaught TypeError of unpacking the None default of next()
when no child of the declared type carries the declared id. -/
def varsGo (varDir : Nat → List (String × Option String × Nat)) :
    List VarConf → Except Unit (List (VarConf × String × (Nat × Nat)))
  | [] => Except.ok []
  | v :: rest =>
    match (varDir v.vtype).find? (fun tr => tr.2.2 == v.vid) with
    | none => Except.error ()
    | some (_, vname, _) =>
      match vname with
      | none => varsGo varDir rest
      | some nm =>
        match varsGo varDir rest with
        | Except.error er => Except.error er
        | Except.ok l => Except.ok ((v, nm, (v.vtype, v.vid)) :: l)

/-- categorize_variables from the source, for one category list; a None
category list returns immediately. -/
def categorize_variables (varDir : Nat → List (String × Option String × Nat)) :
    Option (List VarConf) → Except Unit (List (VarConf × String × (Nat × Nat)))
  | none => Except.ok []
  | some cfgs => varsGo varDir cfgs

/-- attr.replace connecting underscores to spaces in the weather entry
label. -/
def underToSpace (s : String) : String :=
  String.mk (s.data.map (fun c => if c = '_' then ' ' else c))

/-- getattr by name over the attribute list of the weather object. -/
def getAttr (cl : List (String × String)) (a : String) : Option String :=
  (cl.find? (fun p => p.1 == a)).map (fun p => p.2)

/-- The comprehension of categorize_weather: one entry per attribute
whose sibling attribute named with the _units suffix also exists. -/
def weatherGo (cl : List (String × String)) :
    List (String × String) → List (String × String × String)
  | [] => []
  | (a, v) :: rest =>
    match getAttr cl (a ++ "_units") with
    | some u => (v, underToSpace a, u) :: weatherGo cl rest
    | none => weatherGo cl rest

/-- categorize_weather from the source: the attribute list stands for
dir(climate) paired with the getattr values, in dir order. -/
def categorize_weather (cl : List (String × String)) :
    List (String × String × String) :=
  weatherGo cl cl

/-! Concrete inputs used by the witness and counterexample theorems. -/

/-- A node carrying the DoorLock firmware id. -/
def wNode1 : Node := ⟨"n1", some "DoorLock", none, none, none, "1", false⟩

/-- A node matching both the lock firmware id list and the switch uom list. -/
def wNode2 : Node := ⟨"n2", some "DoorLock", none, none, some ["2"], "1", false⟩

/-- A group/scene node whose name carries the default sensor marker. -/
def cNode3 : Node := ⟨"garage sensor scene", none, none, none, none, "1", true⟩

/-- A non-group node whose name carries the sensor marker and whose uom
matches the on/off override codes. -/
def wNode3 : Node := ⟨"door sensor", none, none, none, some ["2"], "1", false⟩

/-- A group node carrying the ignore marker, a fan protocol type and an
empty address. -/
def wNode4 : Node := ⟨"{IGNORE ME} sensor", none, some "1.46.9", none, none, "", true⟩

/-- A FanLinc-style node: fan protocol type, address sub-node numeral 1. -/
def wNode5f : Node := ⟨"fanlinc light", none, some "1.46.65.0", none, none, "11 22 33 1", false⟩

/-- A thermostat-style node: climate protocol type, address numeral 3. -/
def wNode5c : Node := ⟨"thermostat cool", none, some "5.10.1.0", none, none, "11 22 33 3", false⟩

/-- A fan-typed node with a digit-final address. -/
def wNode8 : Node := ⟨"n8", none, some "1.46.65.0", none, none, "11 22 33 2", false⟩

/-- A node whose single uom code 2 sits in both the switch and climate lists. -/
def wNode10 : Node := ⟨"n10", none, none, none, some ["2"], "1", false⟩

/-- A live variable directory with a single type-1 variable of id 3. -/
def varDir6 : Nat → List (String × Option String × Nat) :=
  fun t => if t = 1 then [("variable", some "Var A", 3)] else []

/-- An entity folder with a status leaf but no actions leaf. -/
def ef7bad : EntityFolder := ⟨"Bad", [("status", ⟨"program", 1⟩)]⟩

/-- A well-formed entity folder with status and actions program leaves. -/
def ef7good : EntityFolder := ⟨"Good", [("status", ⟨"program", 2⟩), ("actions", ⟨"program", 3⟩)]⟩

/-- A category folder holding one malformed and one well-formed child. -/
def folder7 : DomainFolder :=
  ⟨[("folder", "Bad", "1"), ("folder", "Good", "2")], [("1", ef7bad), ("2", ef7good)]⟩

/-- A binary_sensor entity folder: only a status leaf is required. -/
def ef7bs : EntityFolder := ⟨"BS", [("status", ⟨"program", 4⟩)]⟩

/-- A binary_sensor category folder. -/
def folder7bs : DomainFolder := ⟨[("folder", "BS", "4")], [("4", ef7bs)]⟩

/-! Shape lemmas: every matcher call either performs no bucket append and
reports false, or performs exactly one append and reports true (the
insteon matcher may also raise).  These capture the short-circuit of the
for loops on the first matching category. -/

theorem nodeDefLoop_shape (ndi : String) (l : List Domain) :
    nodeDefLoop ndi l = ([], false) ∨ ∃ d, nodeDefLoop ndi l = ([d], true) := by
  induction l with
  | nil => exact Or.inl rfl
  | cons d rest ih =>
    by_cases h : ((NODE_FILTERS d).node_def_id).contains ndi = true
    · exact Or.inr ⟨d, by simp only [nodeDefLoop]; rw [if_pos h]⟩
    · simp only [nodeDefLoop]; rw [if_neg h]; exact ih

theorem zwaveLoop_shape (dt : String) (l : List Domain) :
    zwaveLoop dt l = ([], false) ∨ ∃ d, zwaveLoop dt l = ([d], true) := by
  induction l with
  | nil => exact Or.inl rfl
  | cons d rest ih =>
    by_cases h : ((NODE_FILTERS d).zwave_cat).any (fun t => pyStartswith dt t) = true
    · exact Or.inr ⟨d, by simp only [zwaveLoop]; rw [if_pos h]⟩
    · simp only [zwaveLoop]; rw [if_neg h]; exact ih

theorem uomLoop_shape (nu : List String) (l : List Domain) :
    uomLoop nu l = ([], false) ∨ ∃ d, uomLoop nu l = ([d], true) := by
  induction l with
  | nil => exact Or.inl rfl
  | cons d rest ih =>
    by_cases h : (nu.any (fun x => ((NODE_FILTERS d).uom).contains x)) = true
    · exact Or.inr ⟨d, by simp only [uomLoop]; rw [if_pos h]⟩
    · simp only [uomLoop]; rw [if_neg h]; exact ih

theorem statesLoop_shape (nu : List String) (l : List Domain) :
    statesLoop nu l = ([], false) ∨ ∃ d, statesLoop nu l = ([d], true) := by
  induction l with
  | nil => exact Or.inl rfl
  | cons d rest ih =>
    by_cases h : setEqStr nu ((NODE_FILTERS d).states) = true
    · exact Or.inr ⟨d, by simp only [statesLoop]; rw [if_pos h]⟩
    · simp only [statesLoop]; rw [if_neg h]; exact ih

theorem insteonLoop_shape (node : Node) (t : String) (l : List Domain) :
    insteonLoop node t l = Except.error () ∨
    insteonLoop node t l = Except.ok ([], false) ∨
    ∃ d, insteonLoop node t l = Except.ok ([d], true) := by
  induction l with
  | nil => exact Or.inr (Or.inl rfl)
  | cons d rest ih =>
    by_cases h : (((NODE_FILTERS d).insteon_type).any (fun s => pyStartswith t s)) = true
    · simp only [insteonLoop]
      rw [if_pos h]
      by_cases hf : d = Domain.fan
      · rw [if_pos hf]
        cases hln : lastNumeral node.nid with
        | none => exact Or.inl rfl
        | some k =>
          by_cases hk : k = 1
          · refine Or.inr (Or.inr ⟨Domain.light, ?_⟩)
            show (if k = 1 then Except.ok ([Domain.light], true)
              else Except.ok ([d], true)) = Except.ok ([Domain.light], true)
            rw [if_pos hk]
          · refine Or.inr (Or.inr ⟨d, ?_⟩)
            show (if k = 1 then Except.ok ([Domain.light], true)
              else Except.ok ([d], true)) = Except.ok ([d], true)
            rw [if_neg hk]
      · rw [if_neg hf]
        by_cases hc : d = Domain.climate
        · rw [if_pos hc]
          cases hln : lastNumeral node.nid with
          | none => exact Or.inl rfl
          | some k =>
            by_cases hk : k = 2 ∨ k = 3
            · refine Or.inr (Or.inr ⟨Domain.binary_sensor, ?_⟩)
              show (if k = 2 ∨ k = 3 then Except.ok ([Domain.binary_sensor], true)
                else Except.ok ([d], true)) = Except.ok ([Domain.binary_sensor], true)
              rw [if_pos hk]
            · refine Or.inr (Or.inr ⟨d, ?_⟩)
              show (if k = 2 ∨ k = 3 then Except.ok ([Domain.binary_sensor], true)
                else Except.ok ([d], true)) = Except.ok ([d], true)
              rw [if_neg hk]
        · rw [if_neg hc]; exact Or.inr (Or.inr ⟨d, rfl⟩)
    · simp only [insteonLoop]; rw [if_neg h]; exact ih

theorem check_for_node_def_shape (node : Node) (sd : Option Domain) :
    check_for_node_def node sd = ([], false) ∨
    ∃ d, check_for_node_def node sd = ([d], true) := by
  cases hn : node.node_def_id with
  | none => exact Or.inl (by simp only [check_for_node_def, hn])
  | some ndi =>
    rcases nodeDefLoop_shape ndi (domainsFor sd) with h | ⟨d, h⟩
    · exact Or.inl (by simp only [check_for_node_def, hn, h])
    · exact Or.inr ⟨d, by simp only [check_for_node_def, hn, h]⟩

theorem check_for_zwave_cat_shape (node : Node) (sd : Option Domain) :
    check_for_zwave_cat node sd = ([], false) ∨
    ∃ d, check_for_zwave_cat node sd = ([d], true) := by
  cases hn : node.devtype_cat with
  | none => exact Or.inl (by simp only [check_for_zwave_cat, hn])
  | some dt =>
    rcases zwaveLoop_shape dt (domainsFor sd) with h | ⟨d, h⟩
    · exact Or.inl (by simp only [check_for_zwave_cat, hn, h])
    · exact Or.inr ⟨d, by simp only [check_for_zwave_cat, hn, h]⟩

theorem check_for_insteon_type_shape (node : Node) (sd : Option Domain) :
    check_for_insteon_type node sd = Except.error () ∨
    check_for_insteon_type node sd = Except.ok ([], false) ∨
    ∃ d, check_for_insteon_type node sd = Except.ok ([d], true) := by
  cases hn : node.type with
  | none => exact Or.inr (Or.inl (by simp only [check_for_insteon_type, hn]))
  | some t =>
    rcases insteonLoop_shape node t (domainsFor sd) with h | h | ⟨d, h⟩
    · exact Or.inl (by simp only [check_for_insteon_type, hn, h])
    · exact Or.inr (Or.inl (by simp only [check_for_insteon_type, hn, h]))
    · exact Or.inr (Or.inr ⟨d, by simp only [check_for_insteon_type, hn, h]⟩)

theorem check_for_uom_id_none_shape (node : Node) :
    check_for_uom_id node none none = Except.ok ([], false) ∨
    ∃ d, check_for_uom_id node none none = Except.ok ([d], true) := by
  cases hn : node.uom with
  | none => exact Or.inl (by simp only [check_for_uom_id, hn])
  | some u =>
    rcases uomLoop_shape (u.map strToLower) (domainsFor none) with h | ⟨d, h⟩
    · exact Or.inl (by simp only [check_for_uom_id, hn, h])
    · exact Or.inr ⟨d, by simp only [check_for_uom_id, hn, h]⟩

theorem check_for_states_none_shape (node : Node) :
    check_for_states_in_uom node none none = Except.ok ([], false) ∨
    ∃ d, check_for_states_in_uom node none none = Except.ok ([d], true) := by
  cases hn : node.uom with
  | none => exact Or.inl (by simp only [check_for_states_in_uom, hn])
  | some u =>
    rcases statesLoop_shape (u.map strToLower) (domainsFor none) with h | ⟨d, h⟩
    · exact Or.inl (by simp only [check_for_states_in_uom, hn, h])
    · exact Or.inr ⟨d, by simp only [check_for_states_in_uom, hn, h]⟩

theorem check_for_uom_id_override_shape (node : Node) (e : Domain) (u : String)
    (ul : List String) :
    check_for_uom_id node (some e) (some (u :: ul)) = Except.ok ([], false) ∨
    check_for_uom_id node (some e) (some (u :: ul)) = Except.ok ([e], true) := by
  cases hn : node.uom with
  | none => exact Or.inl (by simp only [check_for_uom_id, hn])
  | some nu =>
    simp only [check_for_uom_id, hn]
    rw [if_neg (show ¬((u :: ul).isEmpty = true) by simp)]
    by_cases h : ((nu.map strToLower).any (fun x => (u :: ul).contains x)) = true
    · rw [if_pos h]; exact Or.inr rfl
    · rw [if_neg h]; exact Or.inl rfl

theorem check_for_states_override_shape (node : Node) (e : Domain) (u : String)
    (ul : List String) :
    check_for_states_in_uom node (some e) (some (u :: ul)) = Except.ok ([], false) ∨
    check_for_states_in_uom node (some e) (some (u :: ul)) = Except.ok ([e], true) := by
  cases hn : node.uom with
  | none => exact Or.inl (by simp only [check_for_states_in_uom, hn])
  | some nu =>
    simp only [check_for_states_in_uom, hn]
    rw [if_neg (show ¬((u :: ul).isEmpty = true) by simp)]
    by_cases h : setEqStr (nu.map strToLower) (u :: ul) = true
    · rw [if_pos h]; exact Or.inr rfl
    · rw [if_neg h]; exact Or.inl rfl

/-! Single-category variants used by the forced-sensor helper. -/

theorem check_for_node_def_single (node : Node) (e : Domain) :
    check_for_node_def node (some e) = ([], false) ∨
    check_for_node_def node (some e) = ([e], true) := by
  cases hn : node.node_def_id with
  | none => exact Or.inl (by simp only [check_for_node_def, hn])
  | some ndi =>
    by_cases h : ((NODE_FILTERS e).node_def_id).contains ndi = true
    · refine Or.inr ?_
      simp only [check_for_node_def, hn, domainsFor, nodeDefLoop]
      rw [if_pos h]
    · refine Or.inl ?_
      simp only [check_for_node_def, hn, domainsFor, nodeDefLoop]
      rw [if_neg h]

theorem check_for_insteon_bs (node : Node) :
    check_for_insteon_type node (some Domain.binary_sensor) = Except.ok ([], false) ∨
    check_for_insteon_type node (some Domain.binary_sensor)
      = Except.ok ([Domain.binary_sensor], true) := by
  cases hn : node.type with
  | none => exact Or.inl (by simp only [check_for_insteon_type, hn])
  | some t =>
    by_cases h : (((NODE_FILTERS Domain.binary_sensor).insteon_type).any
        (fun s => pyStartswith t s)) = true
    · refine Or.inr ?_
      simp only [check_for_insteon_type, hn, domainsFor, insteonLoop]
      rw [if_pos h, if_neg (by decide : ¬(Domain.binary_sensor = Domain.fan)),
        if_neg (by decide : ¬(Domain.binary_sensor = Domain.climate))]
    · refine Or.inl ?_
      simp only [check_for_insteon_type, hn, domainsFor, insteonLoop]
      rw [if_neg h]

/-- The forced-sensor helper never raises and either appends exactly the
binary_sensor bucket reporting true, or appends nothing reporting false. -/
theorem isbs_shape (node : Node) :
    is_sensor_a_binary_sensor node = Except.ok ([], false) ∨
    is_sensor_a_binary_sensor node = Except.ok ([Domain.binary_sensor], true) := by
  rcases check_for_node_def_single node Domain.binary_sensor with h1 | h1
  · rcases check_for_insteon_bs node with h2 | h2
    · rcases check_for_uom_id_override_shape node Domain.binary_sensor "2" ["78"] with h3 | h3
      · rcases check_for_states_override_shape node Domain.binary_sensor "on" ["off"] with h4 | h4
        · exact Or.inl (by simp [is_sensor_a_binary_sensor, h1, h2, h3, h4])
        · exact Or.inr (by simp [is_sensor_a_binary_sensor, h1, h2, h3, h4])
      · exact Or.inr (by simp [is_sensor_a_binary_sensor, h1, h2, h3])
    · exact Or.inr (by simp [is_sensor_a_binary_sensor, h1, h2])
  · exact Or.inr (by simp [is_sensor_a_binary_sensor, h1])

/-- The forced-sensor helper reports true exactly when one of its four
binary_sensor-restricted checks matches. -/
theorem isbs_true_iff (node : Node) :
    is_sensor_a_binary_sensor node = Except.ok ([Domain.binary_sensor], true) ↔
      ((check_for_node_def node (some Domain.binary_sensor)).2 = true ∨
       (∃ a, check_for_insteon_type node (some Domain.binary_sensor)
          = Except.ok (a, true)) ∨
       (∃ a, check_for_uom_id node (some Domain.binary_sensor) (some ["2", "78"])
          = Except.ok (a, true)) ∨
       (∃ a, check_for_states_in_uom node (some Domain.binary_sensor) (some ["on", "off"])
          = Except.ok (a, true))) := by
  rcases check_for_node_def_single node Domain.binary_sensor with h1 | h1 <;>
  rcases check_for_insteon_bs node with h2 | h2 <;>
  rcases check_for_uom_id_override_shape node Domain.binary_sensor "2" ["78"] with h3 | h3 <;>
  rcases check_for_states_override_shape node Domain.binary_sensor "on" ["off"] with h4 | h4 <;>
  simp [is_sensor_a_binary_sensor, h1, h2, h3, h4]

/-- When the node address ends in a digit, the insteon loop cannot raise. -/
theorem insteonLoop_ok (node : Node) (t : String) (l : List Domain)
    (h : (lastNumeral node.nid).isSome = true) :
    ∃ x, insteonLoop node t l = Except.ok x := by
  obtain ⟨k, hk⟩ := Option.isSome_iff_exists.mp h
  induction l with
  | nil => exact ⟨([], false), rfl⟩
  | cons d rest ih =>
    simp only [insteonLoop]
    by_cases hc : (((NODE_FILTERS d).insteon_type).any (fun s => pyStartswith t s)) = true
    · rw [if_pos hc]
      by_cases hf : d = Domain.fan
      · rw [if_pos hf]
        simp only [hk]
        by_cases hk1 : k = 1
        · rw [if_pos hk1]; exact ⟨_, rfl⟩
        · rw [if_neg hk1]; exact ⟨_, rfl⟩
      · rw [if_neg hf]
        by_cases hcl : d = Domain.climate
        · rw [if_pos hcl]
          simp only [hk]
          by_cases hk2 : k = 2 ∨ k = 3
          · rw [if_pos hk2]; exact ⟨_, rfl⟩
          · rw [if_neg hk2]; exact ⟨_, rfl⟩
        · rw [if_neg hcl]; exact ⟨_, rfl⟩
    · rw [if_neg hc]; exact ih

theorem check_for_insteon_type_ok (node : Node) (sd : Option Domain)
    (h : (lastNumeral node.nid).isSome = true) :
    ∃ x, check_for_insteon_type node sd = Except.ok x := by
  cases hn : node.type with
  | none => exact ⟨([], false), by simp only [check_for_insteon_type, hn]⟩
  | some t =>
    obtain ⟨x, hx⟩ := insteonLoop_ok node t (domainsFor sd) h
    exact ⟨x, by simp only [check_for_insteon_type, hn, hx]⟩

/-- Decomposing a successful leading-segment test one character at a time. -/
theorem charsHavePre_structure {p : Char} {ps cs : List Char}
    (h : charsHavePre (p :: ps) cs = true) :
    ∃ cs2, cs = p :: cs2 ∧ charsHavePre ps cs2 = true := by
  cases cs with
  | nil => exact absurd h (by simp [charsHavePre])
  | cons c cs2 =>
    simp only [charsHavePre, Bool.and_eq_true, beq_iff_eq] at h
    exact ⟨cs2, by rw [h.1], h.2⟩

/-- C1: for every (path, node) pair the classifier handles without an
exception, the list of bucket appends performed for that pair is empty
(node dropped) or a single category (node placed in exactly one bucket);
no pass appends the same node to two category buckets, because every
matcher short-circuits on its first matching category and the classifier
stops at the first successful matcher. -/
theorem C1_single_bucket (ig se path : String) (node : Node) (r : List Domain)
    (h : classifyNode ig se path node = Except.ok r) :
    r = [] ∨ ∃ d, r = [d] := by
  unfold classifyNode at h
  by_cases c1 : (occursWithin ig path || occursWithin ig node.name) = true
  · rw [if_pos c1] at h
    injection h with h2
    exact Or.inl h2.symm
  · rw [if_neg c1] at h
    by_cases c2 : node.isGroup = true
    · rw [if_pos c2] at h
      injection h with h2
      exact Or.inr ⟨SCENE_DOMAIN, h2.symm⟩
    · rw [if_neg c2] at h
      by_cases c3 : (occursWithin se path || occursWithin se node.name) = true
      · rw [if_pos c3] at h
        rcases isbs_shape node with hs | hs <;> simp only [hs] at h <;>
          injection h with h2
        · exact Or.inr ⟨Domain.sensor, h2.symm⟩
        · exact Or.inr ⟨Domain.binary_sensor, h2.symm⟩
      · rw [if_neg c3] at h
        rcases check_for_node_def_shape node none with h1 | ⟨d1, h1⟩
        · rcases check_for_insteon_type_shape node none with h2 | h2 | ⟨d2, h2⟩
          · simp only [h1, h2] at h
            exact Except.noConfusion h
          · rcases check_for_zwave_cat_shape node none with h3 | ⟨d3, h3⟩
            · rcases check_for_uom_id_none_shape node with h4 | ⟨d4, h4⟩
              · rcases check_for_states_none_shape node with h5 | ⟨d5, h5⟩
                · simp only [h1, h2, h3, h4, h5] at h
                  injection h with h6
                  exact Or.inl h6.symm
                · simp only [h1, h2, h3, h4, h5] at h
                  injection h with h6
                  exact Or.inr ⟨d5, h6.symm⟩
              · simp only [h1, h2, h3, h4] at h
                injection h with h6
                exact Or.inr ⟨d4, h6.symm⟩
            · simp only [h1, h2, h3] at h
              injection h with h6
              exact Or.inr ⟨d3, h6.symm⟩
          · simp only [h1, h2] at h
            injection h with h6
            exact Or.inr ⟨d2, h6.symm⟩
        · simp only [h1] at h
          injection h with h6
          exact Or.inr ⟨d1, h6.symm⟩

/-- C1 witness: a DoorLock node is appended to exactly one bucket. -/
theorem C1_single_bucket_witness :
    [Domain.lock] = ([] : List Domain) ∨ ∃ d, [Domain.lock] = [d] :=
  C1_single_bucket "{IGNORE ME}" "sensor" "p" wNode1 [Domain.lock] (by rfl)

/-- C2: in the default cascade (node not ignored, not a group, not
sensor-marked), a node the firmware node-def matcher assigns to category
a while the unit-of-measure matcher would assign it to a different
category b is placed in the bucket of a, the firmware matcher running
first in the fixed priority order. -/
theorem C2_node_def_priority (ig se path : String) (node : Node) (a b : Domain)
    (hig : (occursWithin ig path || occursWithin ig node.name) = false)
    (hgrp : node.isGroup = false)
    (hse : (occursWithin se path || occursWithin se node.name) = false)
    (hnd : check_for_node_def node none = ([a], true))
    (huom : check_for_uom_id node none none = Except.ok ([b], true))
    (hab : a ≠ b) :
    classifyNode ig se path node = Except.ok [a] := by
  unfold classifyNode
  rw [if_neg (by simp [hig]), if_neg (by simp [hgrp]), if_neg (by simp [hse])]
  simp only [hnd]

/-- C2 witness: a DoorLock node with uom code 2 lands in lock, not switch. -/
theorem C2_node_def_priority_witness :
    classifyNode "{IGNORE ME}" "sensor" "p" wNode2 = Except.ok [Domain.lock] :=
  C2_node_def_priority "{IGNORE ME}" "sensor" "p" wNode2 Domain.lock Domain.switch
    (by rfl) (by rfl) (by rfl) (by rfl) (by rfl) (by decide)

/-- C4: a node whose path or name carries the ignore marker is appended
to no bucket and no matcher runs on it, whatever its other metadata
(group flag, sensor marker, protocol type or address included). -/
theorem C4_ignored_dropped (ig se path : String) (node : Node)
    (hig : (occursWithin ig path || occursWithin ig node.name) = true) :
    classifyNode ig se path node = Except.ok [] := by
  unfold classifyNode
  rw [if_pos hig]

/-- C4 witness: an ignore-marked group node with a sensor marker and an
address that would make the insteon matcher raise is still dropped. -/
theorem C4_ignored_dropped_witness :
    classifyNode "{IGNORE ME}" "sensor" "p" wNode4 = Except.ok [] :=
  C4_ignored_dropped "{IGNORE ME}" "sensor" "p" wNode4 (by rfl)

/-- C3 counterexample: a group/scene node whose name carries the sensor
marker (and no ignore marker) is placed in the switch bucket, because
the scene check runs before the forced-sensor check; so the claim as
stated fails for group nodes. -/
theorem C3_counterexample :
    (occursWithin "sensor" "p" || occursWithin "sensor" cNode3.name) = true ∧
    (occursWithin "{IGNORE ME}" "p" || occursWithin "{IGNORE ME}" cNode3.name) = false ∧
    classifyNode "{IGNORE ME}" "sensor" "p" cNode3 = Except.ok [Domain.switch] ∧
    Domain.switch ≠ Domain.sensor ∧ Domain.switch ≠ Domain.binary_sensor :=
  ⟨by rfl, by rfl, by rfl, by decide, by decide⟩

/-- C3 (amended with: and that is not a group/scene node): a non-ignored,
non-group node whose path or name carries the sensor marker is placed in
the sensor or the binary_sensor bucket and in no other; it is placed in
binary_sensor exactly when the firmware matcher, the protocol-type
matcher, the unit-of-measure matcher with override codes 2/78, or the
state-token matcher with override tokens on/off matches restricted to
binary_sensor, and in sensor otherwise. -/
theorem C3_forced_sensor_amended (ig se path : String) (node : Node) (r : List Domain)
    (hig : (occursWithin ig path || occursWithin ig node.name) = false)
    (hgrp : node.isGroup = false)
    (hse : (occursWithin se path || occursWithin se node.name) = true)
    (h : classifyNode ig se path node = Except.ok r) :
    (r = [Domain.binary_sensor] ∨ r = [Domain.sensor]) ∧
    (r = [Domain.binary_sensor] ↔
      ((check_for_node_def node (some Domain.binary_sensor)).2 = true ∨
       (∃ a, check_for_insteon_type node (some Domain.binary_sensor)
          = Except.ok (a, true)) ∨
       (∃ a, check_for_uom_id node (some Domain.binary_sensor) (some ["2", "78"])
          = Except.ok (a, true)) ∨
       (∃ a, check_for_states_in_uom node (some Domain.binary_sensor) (some ["on", "off"])
          = Except.ok (a, true)))) := by
  unfold classifyNode at h
  rw [if_neg (by simp [hig]), if_neg (by simp [hgrp]), if_pos hse] at h
  rcases isbs_shape node with hs | hs <;> simp only [hs] at h <;> injection h with h2
  · have hr : r = [Domain.sensor] := h2.symm
    subst hr
    refine ⟨Or.inr rfl, ?_, ?_⟩
    · intro habs
      exact absurd habs (by decide)
    · intro hdisj
      have hx := (isbs_true_iff node).mpr hdisj
      rw [hs] at hx
      exact absurd hx (by simp)
  · have hr : r = [Domain.binary_sensor] := h2.symm
    subst hr
    exact ⟨Or.inl rfl, fun _ => (isbs_true_iff node).mp hs, fun _ => rfl⟩

/-- C3 witness: a non-group node named with the sensor marker and uom
code 2 is classified binary_sensor via the override uom codes. -/
theorem C3_forced_sensor_amended_witness :
    ([Domain.binary_sensor] = [Domain.binary_sensor] ∨
     ([Domain.binary_sensor] : List Domain) = [Domain.sensor]) ∧
    ([Domain.binary_sensor] = [Domain.binary_sensor] ↔
      ((check_for_node_def wNode3 (some Domain.binary_sensor)).2 = true ∨
       (∃ a, check_for_insteon_type wNode3 (some Domain.binary_sensor)
          = Except.ok (a, true)) ∨
       (∃ a, check_for_uom_id wNode3 (some Domain.binary_sensor) (some ["2", "78"])
          = Except.ok (a, true)) ∨
       (∃ a, check_for_states_in_uom wNode3 (some Domain.binary_sensor) (some ["on", "off"])
          = Except.ok (a, true)))) :=
  C3_forced_sensor_amended "{IGNORE ME}" "sensor" "p" wNode3 [Domain.binary_sensor]
    (by rfl) (by rfl) (by rfl) (by rfl)

/-- C5: the protocol-type matcher redirects a node whose type starts with
the fan code 1.46. and whose address ends in numeral 1 to the light
bucket, and a node whose type starts with the climate code 5. and whose
address ends in numeral 2 or 3 to the binary_sensor bucket, reporting a
successful match in both cases. -/
theorem C5_insteon_special (node : Node) (t : String) (ht : node.type = some t) :
    (pyStartswith t "1.46." = true → lastNumeral node.nid = some 1 →
      check_for_insteon_type node none = Except.ok ([Domain.light], true)) ∧
    (pyStartswith t "5." = true → ∀ k, lastNumeral node.nid = some k →
      k = 2 ∨ k = 3 →
      check_for_insteon_type node none = Except.ok ([Domain.binary_sensor], true)) := by
  constructor
  · intro hpre hn1
    obtain ⟨td⟩ := t
    have h1 : charsHavePre ['1', '.', '4', '6', '.'] td = true := hpre
    obtain ⟨c1, e1, hA⟩ := charsHavePre_structure h1
    subst e1
    obtain ⟨c2, e2, hB⟩ := charsHavePre_structure hA
    subst e2
    obtain ⟨c3, e3, hC⟩ := charsHavePre_structure hB
    subst e3
    obtain ⟨c4, e4, hD⟩ := charsHavePre_structure hC
    subst e4
    obtain ⟨c5, e5, -⟩ := charsHavePre_structure hD
    subst e5
    simp only [check_for_insteon_type, ht, domainsFor, SUPPORTED_DOMAINS, insteonLoop]
    simp only [hn1]
    rfl
  · intro hpre k hnk hk
    obtain ⟨td⟩ := t
    have h1 : charsHavePre ['5', '.'] td = true := hpre
    obtain ⟨c1, e1, hA⟩ := charsHavePre_structure h1
    subst e1
    obtain ⟨c2, e2, -⟩ := charsHavePre_structure hA
    subst e2
    simp only [check_for_insteon_type, ht, domainsFor, SUPPORTED_DOMAINS, insteonLoop]
    simp only [hnk]
    simp only [if_pos hk]
    rfl

/-- C5 witness: a FanLinc node with address numeral 1 goes to light and a
thermostat node with address numeral 3 goes to binary_sensor. -/
theorem C5_insteon_special_witness :
    check_for_insteon_type wNode5f none = Except.ok ([Domain.light], true) ∧
    check_for_insteon_type wNode5c none = Except.ok ([Domain.binary_sensor], true) :=
  ⟨(C5_insteon_special wNode5f "1.46.65.0" rfl).1 rfl rfl,
   (C5_insteon_special wNode5c "5.10.1.0" rfl).2 rfl 3 rfl (Or.inr rfl)⟩

/-- C8: for every well-formed (path, node) input, the classifier runs to
completion without an exception escaping; well-formed means the node
address ends in a digit, so that the address-suffix special cases of the
protocol-type matcher parse their numeral instead of raising. -/
theorem C8_no_exception (ig se path : String) (node : Node)
    (h : (lastNumeral node.nid).isSome = true) :
    ∃ r, classifyNode ig se path node = Except.ok r := by
  unfold classifyNode
  by_cases c1 : (occursWithin ig path || occursWithin ig node.name) = true
  · rw [if_pos c1]; exact ⟨[], rfl⟩
  · rw [if_neg c1]
    by_cases c2 : node.isGroup = true
    · rw [if_pos c2]; exact ⟨[SCENE_DOMAIN], rfl⟩
    · rw [if_neg c2]
      by_cases c3 : (occursWithin se path || occursWithin se node.name) = true
      · rw [if_pos c3]
        rcases isbs_shape node with hs | hs <;> simp only [hs] <;> exact ⟨_, rfl⟩
      · rw [if_neg c3]
        rcases check_for_node_def_shape node none with h1 | ⟨d1, h1⟩
        · simp only [h1]
          obtain ⟨⟨a2, b2⟩, h2⟩ := check_for_insteon_type_ok node none h
          simp only [h2]
          cases b2
          · rcases check_for_zwave_cat_shape node none with h3 | ⟨d3, h3⟩
            · simp only [h3]
              rcases check_for_uom_id_none_shape node with h4 | ⟨d4, h4⟩
              · simp only [h4]
                rcases check_for_states_none_shape node with h5 | ⟨d5, h5⟩ <;>
                  simp only [h5] <;> exact ⟨_, rfl⟩
              · simp only [h4]; exact ⟨_, rfl⟩
            · simp only [h3]; exact ⟨_, rfl⟩
          · exact ⟨_, rfl⟩
        · simp only [h1]; exact ⟨_, rfl⟩

/-- C8 witness: a fan-typed node with a digit-final address classifies
without an exception. -/
theorem C8_no_exception_witness :
    ∃ r, classifyNode "{IGNORE ME}" "sensor" "p" wNode8 = Except.ok r :=
  C8_no_exception "{IGNORE ME}" "sensor" "p" wNode8 (by rfl)

/-- C6: the code raises instead of logging and skipping.  A descriptor
whose (type, id) pair does not resolve in the live directory makes the
next() call return its None default, and the tuple unpacking of None
raises TypeError before the vname-is-None check can run, aborting the
pass; the valid sibling descriptor of id 3 (present in the directory, as
the second conjunct shows) is never processed. -/
theorem C6_unresolved_variable_raises :
    categorize_variables varDir6 (some [⟨5, 1⟩, ⟨3, 1⟩]) = Except.error () ∧
    (varDir6 1).find? (fun tr => tr.2.2 == 3) = some ("variable", some "Var A", 3) :=
  ⟨by rfl, by rfl⟩

/-- C10: the all-categories probe order is the fixed SUPPORTED_DOMAINS
order, and a node whose single uom code 2 sits in both the switch and
the climate lists is assigned by the unit-of-measure matcher to switch,
the first of the two in that order, never to climate. -/
theorem C10_uom_order (node : Node) (h : node.uom = some ["2"]) :
    SUPPORTED_DOMAINS = [Domain.binary_sensor, Domain.sensor, Domain.lock, Domain.fan,
      Domain.cover, Domain.light, Domain.switch, Domain.climate] ∧
    check_for_uom_id node none none = Except.ok ([Domain.switch], true) ∧
    "2" ∈ (NODE_FILTERS Domain.switch).uom ∧ "2" ∈ (NODE_FILTERS Domain.climate).uom ∧
    Domain.switch ≠ Domain.climate := by
  refine ⟨rfl, ?_, by decide, by decide, by decide⟩
  simp only [check_for_uom_id, h]
  rfl

/-- C10 witness: the concrete uom-code-2 node goes to switch. -/
theorem C10_uom_order_witness :
    SUPPORTED_DOMAINS = [Domain.binary_sensor, Domain.sensor, Domain.lock, Domain.fan,
      Domain.cover, Domain.light, Domain.switch, Domain.climate] ∧
    check_for_uom_id wNode10 none none = Except.ok ([Domain.switch], true) ∧
    "2" ∈ (NODE_FILTERS Domain.switch).uom ∧ "2" ∈ (NODE_FILTERS Domain.climate).uom ∧
    Domain.switch ≠ Domain.climate :=
  C10_uom_order wNode10 (by rfl)

/-- C9: the weather classifier emits exactly one entry per attribute
whose sibling attribute named with the _units suffix exists and none for
any other attribute; in particular the object with temperature,
temperature_units and a unitless humidity yields exactly one entry, for
temperature only. -/
theorem C9_weather_pairs :
    (∀ cl : List (String × String), categorize_weather cl =
      (cl.filter (fun p => (getAttr cl (p.1 ++ "_units")).isSome)).map
        (fun p => (p.2, underToSpace p.1, (getAttr cl (p.1 ++ "_units")).getD ""))) ∧
    categorize_weather [("humidity", "55"), ("temperature", "72"), ("temperature_units", "F")]
      = [("72", "temperature", "F")] := by
  constructor
  · intro cl
    have hgen : ∀ l, weatherGo cl l =
        (l.filter (fun p => (getAttr cl (p.1 ++ "_units")).isSome)).map
          (fun p => (p.2, underToSpace p.1, (getAttr cl (p.1 ++ "_units")).getD "")) := by
      intro l
      induction l with
      | nil => rfl
      | cons p rest ih =>
        obtain ⟨a, v⟩ := p
        cases hg : getAttr cl (a ++ "_units") with
        | none => simp [weatherGo, List.filter_cons, hg, ih]
        | some u => simp [weatherGo, List.filter_cons, hg, ih]
    exact hgen cl
  · rfl

/-- C7: a folder child whose status leaf is absent or not of program
kind, or, for every category except binary_sensor, whose actions leaf is
absent or not of program kind, is skipped (with a logged warning) while
the remaining sibling folders of the same category are still processed;
and for binary_sensor every emitted program entity omits its action
handle. -/
theorem C7_program_errors :
    (∀ (domain : Domain) (folder : DomainFolder) (nm nid : String)
       (rest : List (String × String × String)) (ef : EntityFolder),
      folderGet folder nid = some ef →
      (leafGet ef KEY_STATUS = none ∨
       (∃ st, leafGet ef KEY_STATUS = some st ∧ st.dtype ≠ "program") ∨
       (domain ≠ Domain.binary_sensor ∧
         (leafGet ef KEY_ACTIONS = none ∨
          ∃ ac, leafGet ef KEY_ACTIONS = some ac ∧ ac.dtype ≠ "program"))) →
      programChildren domain folder ((KEY_FOLDER, nm, nid) :: rest)
        = programChildren domain folder rest) ∧
    (∀ (f2 : DomainFolder) (ch : List (String × String × String))
       (res : List (String × Leaf × Option Leaf)),
      programChildren Domain.binary_sensor f2 ch = Except.ok res →
      ∀ e ∈ res, e.2.2 = none) := by
  constructor
  · intro domain folder nm nid rest ef hef hbad
    simp only [programChildren]
    rw [if_neg (by simp)]
    simp only [hef]
    rcases hbad with hst | ⟨st, hst, hdt⟩ | ⟨hdom, hact⟩
    · simp only [hst]
    · simp only [hst]
      rw [if_pos hdt]
    · cases hst : leafGet ef KEY_STATUS with
      | none => simp only [hst]
      | some st =>
        simp only [hst]
        by_cases hdt : st.dtype ≠ "program"
        · rw [if_pos hdt]
        · rw [if_neg hdt, if_pos hdom]
          rcases hact with hac | ⟨ac, hac, hadt⟩
          · simp only [hac]
          · simp only [hac]
            rw [if_pos hadt]
  · intro f2 ch
    induction ch with
    | nil =>
      intro res h e he
      simp only [programChildren] at h
      injection h with h2
      subst h2
      exact absurd he (by simp)
    | cons c rest ih =>
      intro res h e he
      obtain ⟨dtype, nm2, nid2⟩ := c
      simp only [programChildren] at h
      by_cases hd : dtype ≠ KEY_FOLDER
      · rw [if_pos hd] at h
        exact ih res h e he
      · rw [if_neg hd] at h
        cases hg : folderGet f2 nid2 with
        | none =>
          simp only [hg] at h
          exact Except.noConfusion h
        | some ef =>
          simp only [hg] at h
          cases hst : leafGet ef KEY_STATUS with
          | none =>
            simp only [hst] at h
            exact ih res h e he
          | some st =>
            simp only [hst] at h
            by_cases hdt : st.dtype ≠ "program"
            · rw [if_pos hdt] at h
              exact ih res h e he
            · rw [if_neg hdt, if_neg (by simp)] at h
              cases hr : programChildren Domain.binary_sensor f2 rest with
              | error er =>
                simp only [hr] at h
                exact Except.noConfusion h
              | ok l =>
                simp only [hr] at h
                injection h with h2
                subst h2
                rcases List.mem_cons.mp he with he1 | he2
                · subst he1; rfl
                · exact ih l hr e he2

/-- C7 witness: a lock folder missing its actions leaf is skipped while
its sibling is still processed, and a binary_sensor entity carries no
action handle. -/
theorem C7_program_errors_witness :
    (programChildren Domain.lock folder7
        [(KEY_FOLDER, "Bad", "1"), (KEY_FOLDER, "Good", "2")]
      = programChildren Domain.lock folder7 [(KEY_FOLDER, "Good", "2")]) ∧
    (("BS", (⟨"program", 4⟩ : Leaf), (none : Option Leaf)).2.2 = none) :=
  ⟨C7_program_errors.1 Domain.lock folder7 "Bad" "1" [(KEY_FOLDER, "Good", "2")] ef7bad
      (by rfl) (Or.inr (Or.inr ⟨by decide, Or.inl (by rfl)⟩)),
   C7_program_errors.2 folder7bs [(KEY_FOLDER, "BS", "4")]
      [("BS", ⟨"program", 4⟩, none)] (by rfl)
      ("BS", ⟨"program", 4⟩, none) (by simp)⟩

/-- C9 witness: the pairing characterization applied to the concrete
three-attribute weather object. -/
theorem C9_weather_pairs_witness :
    categorize_weather [("humidity", "55"), ("temperature", "72"), ("temperature_units", "F")] =
      ([("humidity", "55"), ("temperature", "72"), ("temperature_units", "F")].filter
        (fun p => (getAttr [("humidity", "55"), ("temperature", "72"),
            ("temperature_units", "F")] (p.1 ++ "_units")).isSome)).map
        (fun p => (p.2, underToSpace p.1,
          (getAttr [("humidity", "55"), ("temperature", "72"),
            ("temperature_units", "F")] (p.1 ++ "_units")).getD "")) :=
  C9_weather_pairs.1 [("humidity", "55"), ("temperature", "72"), ("temperature_units", "F")]

end ISY994
